import Mathlib

/-!
Shallow embedding of the django-websocket chat core
(`app/chat/consumers.py`, `app/chat/signals.py`) and proofs of the
spec's claims about it.

The embedding models:
- JSON values delivered to `ChatConsumer.receive` (a failed
  `json.loads` is modelled as `none`);
- the per-connection mutable state (`message_count`, `session_uuid`,
  `is_connected`);
- the process-wide `session_store` dict and `active_requests` set;
- the shutdown orchestration in `send_goodbye_to_all_consumers`
  (drain-poll loop, goodbye-and-close per connected consumer);
- the heartbeat loop body over an explicit cycle schedule;
- the `signal_handler` double-trigger logic.

Time is discretised into the 0.1-second poll ticks of the drain loop;
`uuid.uuid4()` results are passed in as parameters; logging and
metrics emission are treated as external observers (spec §1 excludes
them from the core) and are not modelled.
-/

namespace DjangoWs

/-- JSON values, the possible results of `json.loads` on a text frame.
Objects keep their fields as an association list. -/
inductive Json where
  | null
  | bool (b : Bool)
  | num (n : Int)
  | str (s : String)
  | arr (elems : List Json)
  | obj (fields : List (String × Json))
deriving Repr

/-- `dict.get(key)` on a parsed JSON object: first binding wins in the
model (Python dicts from `json.loads` have unique keys). -/
def Json.getField (fields : List (String × Json)) (key : String) : Option Json :=
  List.lookup key fields

/-- `data.get('action') == 'disconnect'` (`consumers.py` line 257):
true exactly when the `"action"` field is present and is the string
`"disconnect"` (in Python, `None == 'disconnect'` and
`<non-string> == 'disconnect'` are both `False`). -/
def isDisconnectDirective (fields : List (String × Json)) : Bool :=
  match Json.getField fields "action" with
  | some (Json.str s) => s = "disconnect"
  | _ => false

/-- Mutable per-connection state of a `ChatConsumer` instance:
`self.message_count`, `self.session_uuid`, `self.is_connected`
(`consumers.py` lines 79-85). -/
structure ConsumerState where
  message_count : Nat
  session_uuid : Option String
  is_connected : Bool
deriving DecidableEq, Repr

/-- The process-wide `session_store` dict, `session_uuid -> message_count`
(`consumers.py` line 17), modelled as an association list with
unique keys maintained by `storeSet`. -/
abbrev SessionStore := List (String × Nat)

/-- `session_store[u]` lookup. -/
def storeGet (store : SessionStore) (u : String) : Option Nat :=
  List.lookup u store

/-- `session_store[u] = n`: overwrite the binding for `u`, or add it. -/
def storeSet (store : SessionStore) (u : String) (n : Nat) : SessionStore :=
  match store with
  | [] => [(u, n)]
  | (k, v) :: rest => if k = u then (u, n) :: rest else (k, v) :: storeSet rest u n

/-- The process-wide `active_requests` set of in-flight request ids
(`consumers.py` line 14), modelled as a duplicate-free list. -/
abbrev Tracker := List String

/-- `active_requests.add(rid)`. -/
def trackerAdd (t : Tracker) (rid : String) : Tracker :=
  if rid ∈ t then t else rid :: t

/-- `active_requests.discard(rid)`. -/
def trackerDiscard (t : Tracker) (rid : String) : Tracker :=
  List.filter (fun x => x ≠ rid) t

/-- Replies a `ChatConsumer` can send to its own peer. -/
inductive Reply where
  | count (n : Nat)
  | bye (total : Nat)
  | sessionUuid (u : String)
  | heartbeat (ts : Nat)
  | errorInvalidJson
  | errorInternal
deriving DecidableEq, Repr

/-- One call of `ChatConsumer.receive` (`consumers.py` lines 244-342),
without the in-flight bookkeeping: takes the consumer state, the
session store and the parse result of the inbound frame (`none` when
`json.loads` raised `JSONDecodeError`), and returns the new state, the
new store and the reply sent.

- a JSON object whose `"action"` field equals `"disconnect"` gets the
  goodbye reply and returns with no state change (lines 257-272);
- any other JSON object increments `message_count`, records it in the
  store under `session_uuid` when that is truthy (lines 274-289), and
  replies with the count;
- a non-object makes `data.get` raise `AttributeError`, landing in the
  generic `except Exception` handler (lines 326-339);
- a parse failure lands in the `except json.JSONDecodeError` handler
  (lines 313-323). -/
def receiveCore (st : ConsumerState) (store : SessionStore) (td : Option Json) :
    ConsumerState × SessionStore × Reply :=
  match td with
  | none => (st, store, Reply.errorInvalidJson)
  | some (Json.obj fields) =>
    if isDisconnectDirective fields then
      (st, store, Reply.bye st.message_count)
    else
      let newCount := st.message_count + 1
      let st' := { st with message_count := newCount }
      let store' :=
        match st.session_uuid with
        | some u => if u = "" then store else storeSet store u newCount
        | none => store
      (st', store', Reply.count newCount)
  | some _ => (st, store, Reply.errorInternal)

/-- A full call of `ChatConsumer.receive`, including the in-flight
tracking: `active_requests.add(request_id)` on entry (line 250) and
`active_requests.discard(request_id)` in the `finally` block
(lines 340-342), which Python runs on every exit path. -/
def receive (st : ConsumerState) (store : SessionStore) (tracker : Tracker)
    (rid : String) (td : Option Json) :
    ConsumerState × SessionStore × Tracker × Reply :=
  let trackerDuring := trackerAdd tracker rid
  let r := receiveCore st store td
  (r.1, r.2.1, trackerDiscard trackerDuring rid, r.2.2)

/-- Fold `receiveCore` over a list of inbound frames, collecting the
replies in order: the serve loop of one connection (messages on one
connection are processed strictly in order, spec §5). -/
def runMessages : ConsumerState → SessionStore → List (Option Json) →
    ConsumerState × SessionStore × List Reply
  | st, store, [] => (st, store, [])
  | st, store, td :: rest =>
    let r := receiveCore st store td
    let rr := runMessages r.1 r.2.1 rest
    (rr.1, rr.2.1, r.2.2 :: rr.2.2)

/-- A "normal" inbound frame: valid JSON, a JSON object, and not a
disconnect directive. -/
def isNormal (td : Option Json) : Prop :=
  ∃ fields, td = some (Json.obj fields) ∧ isDisconnectDirective fields = false

/-! ## Session resolution at connect (`ChatConsumer.connect`, lines 94-109) -/

/-- The session-resolution step of `ChatConsumer.connect`
(`consumers.py` lines 94-109): given the resumption token extracted
from the query string (`none` when `'session_uuid='` is absent), the
session store, and the fresh uuid that `uuid.uuid4()` would produce,
return the connection's `session_uuid` and initial `message_count`.
The step never raises: an unknown token is kept but starts at 0, an
absent token is replaced by the fresh uuid with count 0. -/
def resolveSession (token : Option String) (store : SessionStore) (freshUuid : String) :
    String × Nat :=
  match token with
  | some t =>
    match storeGet store t with
    | some n => (t, n)
    | none => (t, 0)
  | none => (freshUuid, 0)

/-! ## Shutdown orchestration (`send_goodbye_to_all_consumers`, lines 23-51,
`send_goodbye_to_consumer`, lines 53-67, `ChatConsumer.close`, lines 387-394) -/

/-- What the shutdown orchestrator needs to know about one registered
consumer, plus an oracle for the two transport operations that can
fail on it: the goodbye `send` and the transport-level close. -/
structure ShutdownConsumer where
  is_connected : Bool
  message_count : Nat
  sendFails : Bool
  closeFails : Bool
deriving DecidableEq, Repr

/-- Outcome of `goodbye_and_close` (`consumers.py` lines 40-46) for one
consumer: whether the goodbye send was attempted and with which
payload, whether it succeeded, whether the transport close was
attempted and with which code, and whether it succeeded. -/
structure GoodbyeOutcome where
  goodbyePayload : Reply
  goodbyeDelivered : Bool
  closeAttempted : Bool
  closeCode : Nat
  closeDelivered : Bool
deriving DecidableEq, Repr

/-- `goodbye_and_close(consumer)` (`consumers.py` lines 40-46) for a
consumer that passed the `is_connected` check: `send_goodbye_to_consumer`
sends `{"bye": true, "total": message_count}` and swallows its own send
exception (lines 53-67), so `consumer.close(code=1001)` is always
reached; `ChatConsumer.close` re-checks `is_connected` and swallows the
transport error (lines 387-394); any residual exception is caught by
`goodbye_and_close` itself, so the outcome is total. -/
def goodbyeAndClose (c : ShutdownConsumer) : GoodbyeOutcome :=
  { goodbyePayload := Reply.bye c.message_count
    goodbyeDelivered := !c.sendFails
    closeAttempted := c.is_connected
    closeCode := 1001
    closeDelivered := c.is_connected && !c.closeFails }

/-- The notify step of `send_goodbye_to_all_consumers` (lines 36-48):
for each registered consumer, a `goodbye_and_close` task is created
iff its `is_connected` flag is set, and the tasks are gathered with
`return_exceptions=True`. The outcome list is aligned with the
registry list; `none` marks a consumer skipped as not connected. -/
def notifyAll (cs : List ShutdownConsumer) : List (Option GoodbyeOutcome) :=
  cs.map fun c => if c.is_connected then some (goodbyeAndClose c) else none

/-- The drain-poll loop of `send_goodbye_to_all_consumers`
(`consumers.py` lines 28-30):
`while active_requests and (time - start) < timeout: await sleep(0.1)`.
Time is discretised into the 0.1-second sleep ticks; `inflight t`
says whether `active_requests` is non-empty when the condition is
evaluated `t` ticks after `start`. Returns the tick at which the loop
exits, given the remaining tick budget. -/
def drainLoop (inflight : Nat → Bool) (t : Nat) : Nat → Nat
  | 0 => t
  | budget + 1 => if inflight t then drainLoop inflight (t + 1) budget else t

/-- Phases of the shutdown sequence (spec §4.6). -/
inductive Phase where
  | running
  | draining
  | notifying
  | forceClosing
  | complete
deriving DecidableEq, Repr

/-- What one run of `send_goodbye_to_all_consumers` (lines 23-51) did. -/
structure ShutdownReport where
  drainExitTick : Nat
  incompleteRecorded : Bool
  outcomes : List (Option GoodbyeOutcome)
  finalPhase : Phase
deriving Repr

/-- `send_goodbye_to_all_consumers` (`consumers.py` lines 23-51):
drain-poll up to `timeoutTicks` ticks, record a warning if
`active_requests` is still non-empty when the loop exits (line 31),
then run the notify step over the registered consumers and gather the
tasks with `return_exceptions=True`; the function body has no other
exit, so it always runs to completion. -/
def sendGoodbyeToAllConsumers (inflight : Nat → Bool) (timeoutTicks : Nat)
    (cs : List ShutdownConsumer) : ShutdownReport :=
  let exitTick := drainLoop inflight 0 timeoutTicks
  { drainExitTick := exitTick
    incompleteRecorded := inflight exitTick
    outcomes := notifyAll cs
    finalPhase := Phase.complete }

/-! ## Heartbeat loop (`ChatConsumer._heartbeat_loop`, lines 345-385) -/

/-- The environment of one iteration of the heartbeat `while` loop:
the value of `self.is_connected` at the `while` guard (line 349),
whether the `asyncio.sleep` was interrupted by cancellation
(line 376), the value of `self.is_connected` re-read after the sleep
(line 353), and whether the `send` of the heartbeat raised
(line 379). -/
structure HbCycle where
  connectedAtGuard : Bool
  cancelledInSleep : Bool
  connectedAfterSleep : Bool
  sendFails : Bool
deriving DecidableEq, Repr

/-- What one iteration of the heartbeat loop did. -/
inductive HbStep where
  | sent (cycle : HbCycle)
  | exitedNoSend (cycle : HbCycle)
  | exitedAfterFailedSend (cycle : HbCycle)
deriving DecidableEq, Repr

/-- `ChatConsumer._heartbeat_loop` (`consumers.py` lines 345-385) over
an explicit schedule of cycle environments: each iteration first
checks the `while self.is_connected` guard, then sleeps the interval,
then sends the timestamp message only if still connected; a cleared
flag, a cancellation delivered in the sleep, or a send exception each
end the loop (lines 372-381). The result is the list of iteration
records, in order. -/
def heartbeatLoop : List HbCycle → List HbStep
  | [] => []
  | c :: rest =>
    if c.connectedAtGuard then
      if c.cancelledInSleep then [HbStep.exitedNoSend c]
      else if c.connectedAfterSleep then
        if c.sendFails then [HbStep.exitedAfterFailedSend c]
        else HbStep.sent c :: heartbeatLoop rest
      else [HbStep.exitedNoSend c]
    else []

/-- Whether an iteration record sent a heartbeat message. -/
def HbStep.didSend : HbStep → Bool
  | HbStep.sent _ => true
  | _ => false

/-- The cycle environment of an iteration record. -/
def HbStep.cycle : HbStep → HbCycle
  | HbStep.sent c => c
  | HbStep.exitedNoSend c => c
  | HbStep.exitedAfterFailedSend c => c

/-! ## Signal handling (`app/chat/signals.py`, lines 12-41) -/

/-- What `signal_handler` does after its logging: either schedule the
graceful shutdown task on the running event loop, or terminate the
process via `exit`. -/
inductive SignalAction where
  | scheduleShutdown
  | forceExit (code : Nat)
deriving DecidableEq, Repr

/-- Whether a `SignalAction` terminates the process. -/
def SignalAction.terminatesProcess : SignalAction → Bool
  | SignalAction.scheduleShutdown => false
  | SignalAction.forceExit _ => true

/-- `signal_handler` (`signals.py` lines 12-41) on the happy path where
a running event loop exists: takes the global `shutdown_requested`
flag, returns the new flag value and the action taken. A first
trigger sets the flag and schedules `graceful_shutdown()`; a trigger
while `shutdown_requested` is already set logs "Shutdown already in
progress, forcing exit" and calls `exit(1)` (lines 19-21). -/
def signalHandler (shutdown_requested : Bool) : Bool × SignalAction :=
  if shutdown_requested then
    (shutdown_requested, SignalAction.forceExit 1)
  else
    (true, SignalAction.scheduleShutdown)

/-! ## Helper lemmas -/

/-- `receive` on a normal frame: the counter is incremented, persisted
under a truthy `session_uuid`, and echoed in the reply. -/
theorem receiveCore_normal (st : ConsumerState) (store : SessionStore)
    (fields : List (String × Json)) (h : isDisconnectDirective fields = false) :
    receiveCore st store (some (Json.obj fields)) =
      ({ st with message_count := st.message_count + 1 },
       (match st.session_uuid with
        | some u => if u = "" then store else storeSet store u (st.message_count + 1)
        | none => store),
       Reply.count (st.message_count + 1)) := by
  simp [receiveCore, h]

/-- The replies of a run of normal messages, indexed from an arbitrary
starting counter: the k-th reply (0-indexed) carries
`message_count + k + 1`. -/
theorem runMessages_normal_get (msgs : List (Option Json)) :
    ∀ (st : ConsumerState) (store : SessionStore),
      (∀ td ∈ msgs, isNormal td) →
      ∀ k, k < msgs.length →
        ((runMessages st store msgs).2.2).get? k =
          some (Reply.count (st.message_count + k + 1)) := by
  induction msgs with
  | nil =>
    intro st store _ k hk
    simp at hk
  | cons td rest ih =>
    intro st store hall k hk
    obtain ⟨fields, rfl, hdir⟩ := hall _ (List.mem_cons_self _ _)
    have hrest : ∀ td ∈ rest, isNormal td := fun td h => hall td (List.mem_cons_of_mem _ h)
    cases k with
    | zero =>
      simp [runMessages, receiveCore_normal st store fields hdir]
    | succ k =>
      have hk' : k < rest.length := by simpa using Nat.lt_of_succ_lt_succ hk
      have := ih { st with message_count := st.message_count + 1 }
        ((receiveCore st store (some (Json.obj fields))).2.1) hrest k hk'
      simp only [runMessages, receiveCore_normal st store fields hdir] at this ⊢
      simp only [List.get?_cons_succ]
      rw [this]
      congr 2
      omega

/-- The number of replies equals the number of inbound frames. -/
theorem runMessages_length (msgs : List (Option Json)) :
    ∀ (st : ConsumerState) (store : SessionStore),
      ((runMessages st store msgs).2.2).length = msgs.length := by
  induction msgs with
  | nil => intro st store; simp [runMessages]
  | cons td rest ih => intro st store; simp [runMessages, ih]

/-- The drain-poll loop exits within its tick budget. -/
theorem drainLoop_le (inflight : Nat → Bool) :
    ∀ (budget t : Nat), drainLoop inflight t budget ≤ t + budget := by
  intro budget
  induction budget with
  | zero => intro t; simp [drainLoop]
  | succ b ih =>
    intro t
    by_cases h : inflight t = true
    · simp only [drainLoop, h, if_true]
      calc drainLoop inflight (t + 1) b ≤ t + 1 + b := ih (t + 1)
        _ = t + (b + 1) := by omega
    · have hf : inflight t = false := by simpa using h
      simp [drainLoop, hf]

/-- If the in-flight tracker stays non-empty, the drain-poll loop runs
out its entire budget. -/
theorem drainLoop_busy (inflight : Nat → Bool) (hbusy : ∀ t, inflight t = true) :
    ∀ (budget t : Nat), drainLoop inflight t budget = t + budget := by
  intro budget
  induction budget with
  | zero => intro t; simp [drainLoop]
  | succ b ih =>
    intro t
    simp only [drainLoop, hbusy t, if_true, ih (t + 1)]
    omega

/-- A heartbeat is sent in an iteration only when the `while` guard
saw the connection connected, no cancellation arrived during the
sleep, and the post-sleep re-check still saw it connected. -/
theorem heartbeatLoop_sent_connected (sched : List HbCycle) :
    ∀ s ∈ heartbeatLoop sched, s.didSend = true →
      s.cycle.connectedAtGuard = true ∧ s.cycle.cancelledInSleep = false ∧
        s.cycle.connectedAfterSleep = true := by
  induction sched with
  | nil => intro s hs; simp [heartbeatLoop] at hs
  | cons c rest ih =>
    intro s hs hsend
    by_cases hg : c.connectedAtGuard = true
    · by_cases hcs : c.cancelledInSleep = true
      · simp [heartbeatLoop, hg, hcs] at hs
        subst hs
        simp [HbStep.didSend] at hsend
      · have hcs' : c.cancelledInSleep = false := by simpa using hcs
        by_cases hca : c.connectedAfterSleep = true
        · by_cases hsf : c.sendFails = true
          · simp [heartbeatLoop, hg, hcs', hca, hsf] at hs
            subst hs
            simp [HbStep.didSend] at hsend
          · have hsf' : c.sendFails = false := by simpa using hsf
            simp only [heartbeatLoop, hg, hcs', hca, hsf', if_true, if_false,
              Bool.false_eq_true, List.mem_cons] at hs
            rcases hs with hs | hs
            · subst hs
              exact ⟨hg, hcs', hca⟩
            · exact ih s hs hsend
        · have hca' : c.connectedAfterSleep = false := by simpa using hca
          simp [heartbeatLoop, hg, hcs', hca'] at hs
          subst hs
          simp [HbStep.didSend] at hsend
    · have hg' : c.connectedAtGuard = false := by simpa using hg
      simp [heartbeatLoop, hg'] at hs

/-! ## The claims -/

/-- C1: on a connection whose session started fresh (counter 0), for
any sequence of N normal messages (valid JSON objects without a
disconnect directive), the k-th reply is `{"count": k}`, k 1-indexed,
for any N ≥ 0. -/
theorem chat_c1_fresh_session_counts (st : ConsumerState) (store : SessionStore)
    (msgs : List (Option Json)) (hst : st.message_count = 0)
    (hall : ∀ td ∈ msgs, isNormal td) (k : Nat) (hk : k < msgs.length) :
    ((runMessages st store msgs).2.2).get? k = some (Reply.count (k + 1)) := by
  have h := runMessages_normal_get msgs st store hall k hk
  rw [hst] at h
  simpa using h

/-- Witness for C1: two normal messages from a fresh session; the
second reply (index 1) is `{"count": 2}`. -/
theorem chat_c1_witness :
    ((runMessages ⟨0, some "s", true⟩ []
        [some (Json.obj [("message", Json.str "a")]), some (Json.obj [])]).2.2).get? 1 =
      some (Reply.count 2) := by
  apply chat_c1_fresh_session_counts
  · rfl
  · intro td h
    simp only [List.mem_cons, List.not_mem_nil, or_false] at h
    rcases h with h | h <;> subst h <;> exact ⟨_, rfl, rfl⟩
  · decide

/-- C2: during the shutdown notify step, every registered consumer
whose connected flag is set gets a `goodbye_and_close` task whose
goodbye payload is `{"bye": true, "total": message_count}` followed by
a close with code 1001 (attempted even when the goodbye send fails),
and its outcome only depends on that consumer: replacing every other
registry entry (e.g. by consumers whose send and close both fail)
leaves it unchanged. -/
theorem shutdown_c2_goodbye_and_close (cs cs' : List ShutdownConsumer) (i : Nat)
    (c : ShutdownConsumer) (hc : cs[i]? = some c) (hc' : cs'[i]? = some c)
    (hconn : c.is_connected = true) :
    (notifyAll cs)[i]? = some (some (goodbyeAndClose c)) ∧
    (goodbyeAndClose c).goodbyePayload = Reply.bye c.message_count ∧
    (goodbyeAndClose c).closeAttempted = true ∧
    (goodbyeAndClose c).closeCode = 1001 ∧
    (notifyAll cs')[i]? = (notifyAll cs)[i]? := by
  have h1 : (notifyAll cs)[i]? = some (some (goodbyeAndClose c)) := by
    simp [notifyAll, List.getElem?_map, hc, hconn]
  have h2 : (notifyAll cs')[i]? = some (some (goodbyeAndClose c)) := by
    simp [notifyAll, List.getElem?_map, hc', hconn]
  refine ⟨h1, rfl, ?_, rfl, h2.trans h1.symm⟩
  simp [goodbyeAndClose, hconn]

/-- Witness for C2: a registry of two connected consumers; the second
consumer's send and close both fail, yet the first consumer's
goodbye-and-close outcome is the same as in a registry where the
second consumer is replaced entirely. -/
theorem shutdown_c2_witness :
    (notifyAll [⟨true, 5, false, false⟩, ⟨true, 3, true, true⟩])[0]? =
        some (some (goodbyeAndClose ⟨true, 5, false, false⟩)) ∧
      (goodbyeAndClose (⟨true, 5, false, false⟩ : ShutdownConsumer)).goodbyePayload =
        Reply.bye 5 ∧
      (goodbyeAndClose (⟨true, 5, false, false⟩ : ShutdownConsumer)).closeAttempted = true ∧
      (goodbyeAndClose (⟨true, 5, false, false⟩ : ShutdownConsumer)).closeCode = 1001 ∧
      (notifyAll [⟨true, 5, false, false⟩, ⟨false, 9, true, true⟩])[0]? =
        (notifyAll [⟨true, 5, false, false⟩, ⟨true, 3, true, true⟩])[0]? :=
  shutdown_c2_goodbye_and_close
    [⟨true, 5, false, false⟩, ⟨true, 3, true, true⟩]
    [⟨true, 5, false, false⟩, ⟨false, 9, true, true⟩]
    0 ⟨true, 5, false, false⟩ rfl rfl rfl

/-- C3: the shutdown drain wait exits within the configured tick
budget; the "some operations did not finish" degradation is recorded
exactly when the in-flight tracker is still non-empty at the exit
tick; the notify step runs regardless of whether draining completed;
and the orchestrator reaches Complete for every in-flight trace,
timeout and registry, including registries where every close fails. -/
theorem shutdown_c3_bounded_and_complete (inflight : Nat → Bool) (timeoutTicks : Nat)
    (cs : List ShutdownConsumer) :
    (sendGoodbyeToAllConsumers inflight timeoutTicks cs).drainExitTick ≤ timeoutTicks ∧
    ((sendGoodbyeToAllConsumers inflight timeoutTicks cs).incompleteRecorded = true ↔
      inflight ((sendGoodbyeToAllConsumers inflight timeoutTicks cs).drainExitTick) = true) ∧
    (sendGoodbyeToAllConsumers inflight timeoutTicks cs).outcomes = notifyAll cs ∧
    (sendGoodbyeToAllConsumers inflight timeoutTicks cs).finalPhase = Phase.complete := by
  refine ⟨?_, Iff.rfl, rfl, rfl⟩
  have h := drainLoop_le inflight timeoutTicks 0
  simpa [sendGoodbyeToAllConsumers] using h

/-- C4: session resolution at connect never raises: a supplied token
found in the store initialises the counter to the stored value, a
supplied but unknown token and an absent token both start at 0, and a
fresh token is used only when none was supplied. -/
theorem connect_c4_session_resolution (store : SessionStore) (token : Option String)
    (freshUuid : String) :
    resolveSession token store freshUuid =
      match token with
      | some t => (t, (storeGet store t).getD 0)
      | none => (freshUuid, 0) := by
  cases token with
  | none => rfl
  | some t => cases h : storeGet store t <;> simp [resolveSession, h]

/-- C5: an unparsable payload gets the reply
`{"error": "Invalid JSON format"}` and changes neither the consumer
state (counter, flag) nor the session store, and the next valid
normal message on the connection still gets the correct next count. -/
theorem receive_c5_invalid_json (st : ConsumerState) (store : SessionStore)
    (fields : List (String × Json)) (hdir : isDisconnectDirective fields = false) :
    receiveCore st store none = (st, store, Reply.errorInvalidJson) ∧
    (runMessages st store [none, some (Json.obj fields)]).2.2 =
      [Reply.errorInvalidJson, Reply.count (st.message_count + 1)] := by
  refine ⟨rfl, ?_⟩
  simp [runMessages, receiveCore, hdir]

/-- Witness for C5: a malformed frame on a connection with counter 3,
followed by a normal message, yields the error reply and then
`{"count": 4}`. -/
theorem receive_c5_witness :
    receiveCore ⟨3, some "s", true⟩ [("s", 3)] none =
        (⟨3, some "s", true⟩, [("s", 3)], Reply.errorInvalidJson) ∧
      (runMessages ⟨3, some "s", true⟩ [("s", 3)]
          [none, some (Json.obj [("message", Json.str "x")])]).2.2 =
        [Reply.errorInvalidJson, Reply.count 4] :=
  receive_c5_invalid_json ⟨3, some "s", true⟩ [("s", 3)]
    [("message", Json.str "x")] rfl

/-- C6: for every inbound frame and every exit path of `receive`
(normal reply, disconnect directive, parse error, other fault), the
in-flight marker is present right after `active_requests.add` and is
gone from the tracker once the call finishes, while every other
marker is preserved. -/
theorem receive_c6_tracker_released (st : ConsumerState) (store : SessionStore)
    (tracker : Tracker) (rid : String) (td : Option Json) (x : String)
    (hx : x ≠ rid) :
    rid ∈ trackerAdd tracker rid ∧
    rid ∉ (receive st store tracker rid td).2.2.1 ∧
    (x ∈ (receive st store tracker rid td).2.2.1 ↔ x ∈ tracker) := by
  have htr : (receive st store tracker rid td).2.2.1 =
      trackerDiscard (trackerAdd tracker rid) rid := rfl
  refine ⟨?_, ?_, ?_⟩
  · by_cases hmem : rid ∈ tracker <;> simp [trackerAdd, hmem]
  · rw [htr]
    simp [trackerDiscard, List.mem_filter]
  · rw [htr]
    by_cases hmem : rid ∈ tracker <;>
      simp [trackerDiscard, trackerAdd, hmem, List.mem_filter, hx]

/-- Witness for C6: a malformed frame with request id `"r"` on a
tracker already holding `"a"`; afterwards `"r"` is gone and `"a"`
survives. -/
theorem receive_c6_witness :
    "r" ∈ trackerAdd ["a"] "r" ∧
      "r" ∉ (receive ⟨0, none, true⟩ [] ["a"] "r" none).2.2.1 ∧
      ("a" ∈ (receive ⟨0, none, true⟩ [] ["a"] "r" none).2.2.1 ↔ "a" ∈ (["a"] : Tracker)) :=
  receive_c6_tracker_released ⟨0, none, true⟩ [] ["a"] "r" none "a" (by decide)

/-- C7: a frame parsing to a JSON object with `"action": "disconnect"`
gets the reply `{"bye": true, "total": message_count}`, leaves the
consumer state and the session store untouched, and the handler
returns after releasing the in-flight marker, with no further
action. -/
theorem receive_c7_disconnect_directive (st : ConsumerState) (store : SessionStore)
    (tracker : Tracker) (rid : String) (fields : List (String × Json))
    (hdir : isDisconnectDirective fields = true) :
    receive st store tracker rid (some (Json.obj fields)) =
      (st, store, trackerDiscard (trackerAdd tracker rid) rid,
        Reply.bye st.message_count) := by
  simp [receive, receiveCore, hdir]

/-- Witness for C7: `{"action": "disconnect"}` on a connection with
counter 2 replies `{"bye": true, "total": 2}` and changes nothing. -/
theorem receive_c7_witness :
    receive ⟨2, some "s", true⟩ [("s", 2)] [] "r"
        (some (Json.obj [("action", Json.str "disconnect")])) =
      (⟨2, some "s", true⟩, [("s", 2)], trackerDiscard (trackerAdd [] "r") "r",
        Reply.bye 2) :=
  receive_c7_disconnect_directive ⟨2, some "s", true⟩ [("s", 2)] [] "r"
    [("action", Json.str "disconnect")] rfl

/-- C8: every heartbeat is sent in a cycle that slept first and then
saw the connection still connected (guard true, no cancellation in
the sleep, still connected after the sleep); once the disconnect has
completed, every later cycle sees the guard false and the loop emits
nothing; and a send exception ends that loop immediately — the
remaining schedule of that connection is never reached. -/
theorem heartbeat_c8_loop (sched : List HbCycle) (s : HbStep)
    (hs : s ∈ heartbeatLoop sched) (hsend : s.didSend = true)
    (post : List HbCycle) (hpost : ∀ c ∈ post, c.connectedAtGuard = false)
    (c : HbCycle) (hg : c.connectedAtGuard = true) (hnc : c.cancelledInSleep = false)
    (hca : c.connectedAfterSleep = true) (hsf : c.sendFails = true)
    (rest : List HbCycle) :
    (s.cycle.connectedAtGuard = true ∧ s.cycle.cancelledInSleep = false ∧
      s.cycle.connectedAfterSleep = true) ∧
    heartbeatLoop post = [] ∧
    heartbeatLoop (c :: rest) = [HbStep.exitedAfterFailedSend c] := by
  refine ⟨heartbeatLoop_sent_connected sched s hs hsend, ?_, ?_⟩
  · cases post with
    | nil => rfl
    | cons d ds => simp [heartbeatLoop, hpost d (List.mem_cons_self _ _)]
  · simp [heartbeatLoop, hg, hnc, hca, hsf]

/-- Witness for C8: a one-cycle schedule whose heartbeat was sent
while connected; a post-disconnect schedule emits nothing; and a
failing send ends the loop with one iteration record. -/
theorem heartbeat_c8_witness :
    ((HbStep.sent ⟨true, false, true, false⟩).cycle.connectedAtGuard = true ∧
      (HbStep.sent ⟨true, false, true, false⟩).cycle.cancelledInSleep = false ∧
      (HbStep.sent ⟨true, false, true, false⟩).cycle.connectedAfterSleep = true) ∧
    heartbeatLoop [⟨false, false, false, false⟩] = [] ∧
    heartbeatLoop [⟨true, false, true, true⟩, ⟨true, false, true, false⟩] =
      [HbStep.exitedAfterFailedSend ⟨true, false, true, true⟩] :=
  heartbeat_c8_loop [⟨true, false, true, false⟩] (HbStep.sent ⟨true, false, true, false⟩)
    (by decide) (by decide)
    [⟨false, false, false, false⟩] (by decide)
    ⟨true, false, true, true⟩ rfl rfl rfl rfl [⟨true, false, true, false⟩]

/-- C9 counterexample: a second shutdown trigger while
`shutdown_requested` is already set takes an action that terminates
the process (`exit(1)` at `signals.py` line 21), contradicting the
claim that it does not terminate the process. -/
theorem signal_c9_counterexample :
    ((signalHandler true).2).terminatesProcess = true := by decide

/-- C9 amended: a second external shutdown trigger arriving while
shutdown is in progress does not restart the drain/notify/close
sequence — it schedules no new shutdown task — but instead of leaving
the process running it logs "already in progress" and terminates the
process with exit code 1; only a first trigger schedules the
shutdown sequence. -/
theorem signal_c9_second_trigger :
    signalHandler true = (true, SignalAction.forceExit 1) ∧
    (signalHandler true).2 ≠ SignalAction.scheduleShutdown ∧
    signalHandler false = (true, SignalAction.scheduleShutdown) := by decide

/-- C10: a frame that is valid JSON but not a JSON object falls into
the generic fault handler: the reply is
`{"error": "Internal server error"}` — not the invalid-JSON reply —
and the consumer state (counter, connected flag) and session store
are unchanged. -/
theorem receive_c10_non_object (st : ConsumerState) (store : SessionStore) (j : Json)
    (hobj : ∀ fields, j ≠ Json.obj fields) :
    receiveCore st store (some j) = (st, store, Reply.errorInternal) ∧
    Reply.errorInternal ≠ Reply.errorInvalidJson := by
  refine ⟨?_, by decide⟩
  cases j with
  | obj fields => exact absurd rfl (hobj fields)
  | null => rfl
  | bool b => rfl
  | num n => rfl
  | str s => rfl
  | arr xs => rfl

/-- Witness for C10: the bare JSON number 3 on a connection with
counter 7 yields the internal-error reply and no state change. -/
theorem receive_c10_witness :
    receiveCore ⟨7, some "s", true⟩ [("s", 7)] (some (Json.num 3)) =
        (⟨7, some "s", true⟩, [("s", 7)], Reply.errorInternal) ∧
      Reply.errorInternal ≠ Reply.errorInvalidJson :=
  receive_c10_non_object ⟨7, some "s", true⟩ [("s", 7)] (Json.num 3)
    (fun _ h => Json.noConfusion h)

end DjangoWs
